import Mathlib

/-!
Verification development for the IKEA Tradfri light platform adapter
(homeassistant/components/light/tradfri.py).

The file shallowly embeds the two adapter classes of the source file,
TradfriLight and TradfriGroup.  Vendor resources (pytradfri device, light
control, light data and group objects) are embedded as structures carrying
exactly the fields the adapter reads.  Each command-constructing pytradfri
call (set_xy_color, set_color_temp, set_dimmer, set_state) is embedded as a
constructor of a command type carrying the payload the adapter passes to it.
The asynchronous executor self._api is embedded, where a claim needs it, as a
function from commands to an Except value: a raised error propagates out of
the calling coroutine, which is what the yield from chain in the source does.

Two places of the source deserve a remark, recorded at the definitions below
that embed them: the rgb branch of TradfriLight.async_turn_on (lines 245-248)
is not syntactically valid Python, and line 301 applies a bitwise or with the
name SUPPORT_RGB_COLOR, which no import of the module binds, so that branch
raises NameError at run time.
-/

/-- Chromaticity pair as passed through the adapter.  The adapter performs no
arithmetic on xy values, it only forwards them, so an exact numeric carrier is
adequate. -/
abbrev XY := Rat × Rat

/-- Commands the light adapter hands to the executor.  Each constructor is one
pytradfri LightControl method call; the Option Nat field is the
transition_time entry of the keyword dictionary params, absent when the
dictionary holds no such key.  set_state carries no params in the source
(lines 222, 266), hence no such field. -/
inductive Command where
  | set_xy_color (x y : Rat) (transition_time : Option Nat)
  | set_color_temp (color_temp : Nat) (transition_time : Option Nat)
  | set_dimmer (dimmer : Nat) (transition_time : Option Nat)
  | set_state (state : Bool)
deriving DecidableEq

/-- Commands the group adapter hands to the executor.  The source calls
set_state with the integers 0 and 1 (lines 101, 117), not booleans. -/
inductive GroupCommand where
  | set_state (state : Nat)
  | set_dimmer (dimmer : Nat) (transition_time : Option Nat)
deriving DecidableEq

/-- Vendor light data object (pytradfri light, light.light_control.lights[i]):
the fields read by the adapter properties at lines 202, 207, 212, 217. -/
structure LightData where
  state : Bool
  dimmer : Nat
  color_temp : Nat
  xy_color : Option XY
deriving DecidableEq

/-- Vendor light control object: the capability metadata and bounds read at
lines 167, 172, 297, 299, plus the list of light data objects indexed at
line 293. -/
structure LightControl where
  can_set_mireds : Bool
  can_set_color : Bool
  min_mireds : Nat
  max_mireds : Nat
  lights : List LightData
deriving DecidableEq

/-- Vendor device resource for one light: the fields read by _refresh at
lines 288-294. -/
structure Light where
  name : String
  reachable : Bool
  light_control : LightControl
deriving DecidableEq

/-- Vendor group resource: the fields read at lines 91, 96, 140. -/
structure GroupResource where
  name : String
  state : Bool
  dimmer : Nat
deriving DecidableEq

/-- Modelled from the spec: the feature bitmask constants of the host light
platform (homeassistant/components/light/__init__.py, outside src).  The spec
describes the capability set as a bitmask-like set over brightness,
transition, colorTemp, xyColor, rgbColor; the concrete power-of-two values
are the host platform constants imported at lines 12-15 of the source.
SUPPORT_RGB_COLOR is deliberately not defined here: the source never imports
it, which is why line 301 raises NameError (see TradfriLight._refresh). -/
def SUPPORT_BRIGHTNESS : Nat := 1

/-- Host platform feature flag for color temperature support. -/
def SUPPORT_COLOR_TEMP : Nat := 2

/-- Host platform feature flag for transition support. -/
def SUPPORT_TRANSITION : Nat := 32

/-- Host platform feature flag for xy color support. -/
def SUPPORT_XY_COLOR : Nat := 64

/-- Module constant at line 28 of the source. -/
def SUPPORTED_FEATURES : Nat := SUPPORT_BRIGHTNESS ||| SUPPORT_TRANSITION

/-- Cached instance state of a TradfriLight adapter: the self fields assigned
in __init__ and _refresh (lines 152-162, 286-301). -/
structure TradfriLightState where
  _light : Light
  _available : Bool
  _light_control : LightControl
  _light_data : LightData
  _name : String
  _features : Nat
deriving DecidableEq

/-- Cached instance state of a TradfriGroup adapter: the self fields assigned
in __init__ and _refresh (lines 60-66, 137-140).  The _api handle is the
executor, threaded separately where needed. -/
structure TradfriGroupState where
  _group : GroupResource
  _name : String
deriving DecidableEq

/-- Keyword arguments of TradfriLight.async_turn_on: the recognized attribute
keys ATTR_TRANSITION, ATTR_BRIGHTNESS, ATTR_XY_COLOR, ATTR_RGB_COLOR,
ATTR_COLOR_TEMP; a field is none exactly when the key is absent from
kwargs. -/
structure TurnOnKwargs where
  transition : Option Nat
  brightness : Option Nat
  xy_color : Option XY
  rgb_color : Option (Nat × Nat × Nat)
  color_temp : Option Nat
deriving DecidableEq

/-- Keyword arguments of TradfriGroup.async_turn_on: the group method only
reads ATTR_TRANSITION and ATTR_BRIGHTNESS (lines 107, 110). -/
structure GroupTurnOnKwargs where
  transition : Option Nat
  brightness : Option Nat
deriving DecidableEq

/-- Error raised inside TradfriLight._refresh, line 293 (IndexError on an
empty lights list) or line 301 (NameError on the unbound SUPPORT_RGB_COLOR
name). -/
inductive RefreshError where
  | nameError
  | indexError
deriving DecidableEq

/-- Opaque failure of the external executor self._api: pytradfri raises an
error from a failed request (a plain failure or a timeout), which yield from
propagates to the caller. -/
inductive ApiError where
  | requestError
  | requestTimeout
deriving DecidableEq

/-- Shallow embedding of TradfriLight.async_turn_on (source lines 224-266).
The first parameter stands for homeassistant.util.color.color_RGB_to_xy,
which lives outside src; modelled from the spec as an arbitrary deterministic
conversion function passed in explicitly.  The params dictionary holds at
most the transition_time key, embedded as an Option Nat; params.pop at lines
237, 244, 252 mutates that one dictionary, so the emptied value is what every
later command of the same call receives.  The rgb branch (lines 242-248) is
not syntactically valid Python in the source (a stray closing parenthesis on
line 245 and a missing comma before **params on lines 247-248); the branch
below follows the evident intent of those lines, namely
set_xy_color(xy[0], xy[1], **params).  The method assigns no field of self,
so the adapter state is returned unchanged. -/
def TradfriLight.async_turn_on (color_RGB_to_xy : Nat → Nat → Nat → XY)
    (st : TradfriLightState) (kwargs : TurnOnKwargs) :
    List Command × TradfriLightState :=
  let params : Option Nat := kwargs.transition.map (fun t => t * 10)
  let brightness := kwargs.brightness
  let (xyCmds, params) :=
    match kwargs.xy_color with
    | none => (([] : List Command), params)
    | some p =>
      let params := if brightness.isSome then none else params
      ([Command.set_xy_color p.1 p.2 params], params)
  let (rgbCmds, params) :=
    match kwargs.rgb_color with
    | none => (([] : List Command), params)
    | some c =>
      let params := if brightness.isSome then none else params
      let xy := color_RGB_to_xy c.1 c.2.1 c.2.2
      ([Command.set_xy_color xy.1 xy.2 params], params)
  let (ctCmds, params) :=
    match kwargs.color_temp with
    | none => (([] : List Command), params)
    | some m =>
      let params := if brightness.isSome then none else params
      ([Command.set_color_temp m params], params)
  let lastCmds :=
    match brightness with
    | some b => [Command.set_dimmer (if b = 255 then 254 else b) params]
    | none => [Command.set_state true]
  (xyCmds ++ rgbCmds ++ ctCmds ++ lastCmds, st)

/-- Shallow embedding of TradfriLight.async_turn_off (lines 219-222): one
set_state(False) command, no field of self assigned. -/
def TradfriLight.async_turn_off (st : TradfriLightState) :
    List Command × TradfriLightState :=
  ([Command.set_state false], st)

/-- Shallow embedding of TradfriGroup.async_turn_on (lines 103-117).  The
keys dictionary holds at most transition_time.  The source clamps by
assigning kwargs[ATTR_BRIGHTNESS] = 254, a mutation of the local kwargs
dictionary only; no field of self is assigned, so the adapter state is
returned unchanged. -/
def TradfriGroup.async_turn_on (st : TradfriGroupState)
    (kwargs : GroupTurnOnKwargs) : List GroupCommand × TradfriGroupState :=
  let keys : Option Nat := kwargs.transition.map (fun t => t * 10)
  match kwargs.brightness with
  | some b =>
    let b := if b = 255 then 254 else b
    ([GroupCommand.set_dimmer b keys], st)
  | none => ([GroupCommand.set_state 1], st)

/-- Shallow embedding of TradfriGroup.async_turn_off (lines 98-101): one
set_state(0) command, no field of self assigned. -/
def TradfriGroup.async_turn_off (st : TradfriGroupState) :
    List GroupCommand × TradfriGroupState :=
  ([GroupCommand.set_state 0], st)

/-- Read accessor name (line 197). -/
def TradfriLight.name (st : TradfriLightState) : String := st._name

/-- Read accessor is_on (line 202). -/
def TradfriLight.is_on (st : TradfriLightState) : Bool := st._light_data.state

/-- Read accessor brightness (line 207). -/
def TradfriLight.brightness (st : TradfriLightState) : Nat :=
  st._light_data.dimmer

/-- Read accessor color_temp (line 212). -/
def TradfriLight.color_temp (st : TradfriLightState) : Nat :=
  st._light_data.color_temp

/-- Read accessor xy_color (line 217). -/
def TradfriLight.xy_color (st : TradfriLightState) : Option XY :=
  st._light_data.xy_color

/-- Read accessor available (line 182). -/
def TradfriLight.available (st : TradfriLightState) : Bool := st._available

/-- Read accessor supported_features (line 192). -/
def TradfriLight.supported_features (st : TradfriLightState) : Nat :=
  st._features

/-- Read accessor min_mireds (line 167). -/
def TradfriLight.min_mireds (st : TradfriLightState) : Nat :=
  st._light_control.min_mireds

/-- Read accessor max_mireds (line 172). -/
def TradfriLight.max_mireds (st : TradfriLightState) : Nat :=
  st._light_control.max_mireds

/-- Shallow embedding of TradfriLight._refresh (lines 286-301), the only
method that assigns the cached self fields; __init__ (line 162) and the
observation callback _observe_update (line 306) both delegate to it.
Assignments happen in source order, so a raised error leaves the fields
assigned so far in place: line 293 raises IndexError when the lights list is
empty (after _light, _available and _light_control are assigned), and line
301 raises NameError whenever can_set_color holds, because the module never
binds the name SUPPORT_RGB_COLOR (the import list at lines 12-15 lacks it);
at that point _features has already received the xy flag of line 300. -/
def TradfriLight._refresh (light : Light) (st : TradfriLightState) :
    TradfriLightState × Option RefreshError :=
  let st := { st with _light := light,
                      _available := light.reachable,
                      _light_control := light.light_control }
  match light.light_control.lights with
  | [] => (st, some RefreshError.indexError)
  | ld :: _ =>
    let st := { st with _light_data := ld,
                        _name := light.name,
                        _features := SUPPORTED_FEATURES }
    let st := if light.light_control.can_set_mireds then
                { st with _features := st._features ||| SUPPORT_COLOR_TEMP }
              else st
    if light.light_control.can_set_color then
      ({ st with _features := st._features ||| SUPPORT_XY_COLOR },
        some RefreshError.nameError)
    else (st, none)

/-- Shallow embedding of TradfriGroup._refresh (lines 137-140). -/
def TradfriGroup._refresh (group : GroupResource) (st : TradfriGroupState) :
    TradfriGroupState :=
  let st := { st with _group := group }
  { st with _name := group.name }

/-- Sequential submission of the emitted commands through the executor, as
the chain of yield from self._api(command) expressions performs it: commands
are submitted in order, each awaited before the next, and a raised executor
error propagates out of the coroutine, so no later command of the same call
is submitted.  The result pairs the commands actually submitted with the
error, if one was raised. -/
def submitAll (api : Command → Except ApiError Unit) :
    List Command → List Command × Option ApiError
  | [] => ([], none)
  | c :: cs =>
    match api c with
    | Except.error e => ([c], some e)
    | Except.ok _ =>
      let r := submitAll api cs
      (c :: r.1, r.2)

/-- One full run of TradfriLight.async_turn_on against an executor: the
commands of the call submitted sequentially until the first raised error. -/
def TradfriLight.run_turn_on (api : Command → Except ApiError Unit)
    (color_RGB_to_xy : Nat → Nat → Nat → XY) (st : TradfriLightState)
    (kwargs : TurnOnKwargs) : List Command × Option ApiError :=
  submitAll api (TradfriLight.async_turn_on color_RGB_to_xy st kwargs).1

/-- Recognizer for set_state commands. -/
def Command.is_set_state : Command → Bool
  | Command.set_state _ => true
  | _ => false

/-- Recognizer for set_dimmer commands. -/
def Command.is_set_dimmer : Command → Bool
  | Command.set_dimmer _ _ => true
  | _ => false

/-- Recognizer for set_xy_color commands. -/
def Command.is_set_xy_color : Command → Bool
  | Command.set_xy_color _ _ _ => true
  | _ => false

/-- Recognizer for set_color_temp commands. -/
def Command.is_set_color_temp : Command → Bool
  | Command.set_color_temp _ _ => true
  | _ => false

/-- Check that a command, when it is a set_dimmer, carries the value v. -/
def Command.dimmer_value_is (v : Nat) : Command → Bool
  | Command.set_dimmer d _ => d == v
  | _ => true

/-- Recognizer for group set_dimmer commands. -/
def GroupCommand.is_set_dimmer : GroupCommand → Bool
  | GroupCommand.set_dimmer _ _ => true
  | _ => false

/-- Per-command transition policy actually implemented by async_turn_on for a
request whose transition is t: a color or color-temperature command carries
t * 10 exactly when brightness is absent; the set_dimmer command carries
t * 10 exactly when no color or color-temperature attribute occurs in the
same request (the pop before a color command empties the shared params
dictionary, so the later dimmer command loses the entry too); a set_state
command never carries a transition (the source passes it no params). -/
def c2_check (kwargs : TurnOnKwargs) (t : Nat) : Command → Bool
  | Command.set_xy_color _ _ p =>
      p == (if kwargs.brightness.isSome then none else some (t * 10))
  | Command.set_color_temp _ p =>
      p == (if kwargs.brightness.isSome then none else some (t * 10))
  | Command.set_dimmer _ p =>
      p == (if kwargs.xy_color.isSome || kwargs.rgb_color.isSome
               || kwargs.color_temp.isSome then none else some (t * 10))
  | Command.set_state _ => true

/-- Sample light data object for concrete instantiations. -/
def sampleLightData : LightData :=
  { state := false, dimmer := 100, color_temp := 300, xy_color := none }

/-- Sample light control without color support. -/
def sampleControl : LightControl :=
  { can_set_mireds := false, can_set_color := false,
    min_mireds := 250, max_mireds := 454, lights := [sampleLightData] }

/-- Sample light device without color support. -/
def sampleLight : Light :=
  { name := "L", reachable := true, light_control := sampleControl }

/-- Sample adapter state for concrete instantiations. -/
def sampleState : TradfriLightState :=
  { _light := sampleLight, _available := true, _light_control := sampleControl,
    _light_data := sampleLightData, _name := "L",
    _features := SUPPORTED_FEATURES }

/-- Sample group and its adapter state. -/
def sampleGroup : GroupResource := { name := "G", state := false, dimmer := 128 }

/-- Sample group adapter state. -/
def sampleGroupState : TradfriGroupState :=
  { _group := sampleGroup, _name := "G" }

/-- Concrete stand-in for the external rgb conversion, used only to
instantiate closed statements whose content does not depend on it. -/
def constXy : Nat → Nat → Nat → XY := fun _ _ _ => (0, 0)

/-- Light control that declares color support; feeds the NameError path of
_refresh. -/
def colorCapableControl : LightControl :=
  { can_set_mireds := true, can_set_color := true,
    min_mireds := 250, max_mireds := 454, lights := [sampleLightData] }

/-- Color-capable light device. -/
def colorCapableLight : Light :=
  { name := "C", reachable := true, light_control := colorCapableControl }

/-- Executor that succeeds on every command. -/
def apiOk : Command → Except ApiError Unit := fun _ => Except.ok ()

/-- Executor that raises on set_color_temp commands and succeeds on all
others. -/
def api1 : Command → Except ApiError Unit := fun c =>
  match c with
  | Command.set_color_temp _ _ => Except.error ApiError.requestError
  | _ => Except.ok ()

/-- Turn-on request holding only an xy color pair. -/
def kwC1 : TurnOnKwargs :=
  { transition := none, brightness := none, xy_color := some (7, 9),
    rgb_color := none, color_temp := none }

/-- Turn-on request holding a transition of 2 seconds, brightness 100 and
color temperature 300. -/
def kwC2 : TurnOnKwargs :=
  { transition := some 2, brightness := some 100, xy_color := none,
    rgb_color := none, color_temp := some 300 }

/-- Turn-on request holding a transition of 3 seconds and an xy color pair
but no brightness. -/
def kwC2w : TurnOnKwargs :=
  { transition := some 3, brightness := none, xy_color := some (7, 9),
    rgb_color := none, color_temp := none }

/-- Turn-on request holding only brightness 255. -/
def kwB255 : TurnOnKwargs :=
  { transition := none, brightness := some 255, xy_color := none,
    rgb_color := none, color_temp := none }

/-- Group turn-on request holding only brightness 255. -/
def gkwB255 : GroupTurnOnKwargs := { transition := none, brightness := some 255 }

/-- Turn-on request holding only a color temperature. -/
def kwC5 : TurnOnKwargs :=
  { transition := none, brightness := none, xy_color := none,
    rgb_color := none, color_temp := some 111 }

/-- Helper: under the brightness bound of the requests the host hands over,
the substitution of 254 for 255 performed by the source agrees with
min b 254. -/
theorem clamp_eq_min (b : Nat) (hb : b ≤ 255) :
    (if b = 255 then 254 else b) = min b 254 := by
  split <;> omega

/-- Claim C1, counterexample: the request holding only the xy pair (7, 9)
makes async_turn_on emit a set_state command (the unconditional power-on
fallback of lines 264-266 runs whenever brightness is absent), so the set
of emitted set power commands is not empty as the claim states. -/
theorem c1_counterexample :
    ¬ ((TradfriLight.async_turn_on constXy sampleState kwC1).1.countP
        Command.is_set_state = 0) := by
  decide

/-- Claim C1, amended: a turn-on request holding only an xy color pair emits
exactly one set color command carrying that pair and zero set brightness
commands, but also exactly one set power on command, emitted after the color
command. -/
theorem c1_amended (x y : Rat) (f : Nat → Nat → Nat → XY)
    (st : TradfriLightState) :
    (TradfriLight.async_turn_on f st
        { transition := none, brightness := none, xy_color := some (x, y),
          rgb_color := none, color_temp := none }).1
      = [Command.set_xy_color x y none, Command.set_state true] := rfl

/-- Claim C2, counterexample: with transition 2, brightness 100 and color
temperature 300 in one request, the pop at line 252 empties the shared params
dictionary, so the following set_dimmer command is emitted without the
converted transition 20, while the claim requires it to carry 20. -/
theorem c2_counterexample :
    (TradfriLight.async_turn_on constXy sampleState kwC2).1
      = [Command.set_color_temp 300 none, Command.set_dimmer 100 none] ∧
    Command.set_dimmer 100 (some 20) ∉
      (TradfriLight.async_turn_on constXy sampleState kwC2).1 := by
  decide

/-- Claim C2, amended: for a request carrying a transition t, every emitted
command satisfies the implemented policy c2_check: color and color
temperature commands carry t * 10 exactly when brightness is absent; the set
brightness command carries t * 10 exactly when no color or color temperature
attribute is present in the same request (the removal before a color command
also strips the entry from the later brightness command); a set power
command never carries a transition. -/
theorem c2_amended (f : Nat → Nat → Nat → XY) (st : TradfriLightState)
    (kwargs : TurnOnKwargs) (t : Nat) (h : kwargs.transition = some t) :
    (TradfriLight.async_turn_on f st kwargs).1.all (c2_check kwargs t)
      = true := by
  rcases hbr : kwargs.brightness with _ | b <;>
  rcases hxy : kwargs.xy_color with _ | p <;>
  rcases hrgb : kwargs.rgb_color with _ | c <;>
  rcases hct : kwargs.color_temp with _ | m <;>
  simp [TradfriLight.async_turn_on, c2_check, h, hbr, hxy, hrgb, hct]

/-- Claim C2, witness for the amended theorem at the request kwC2w. -/
theorem c2_amended_witness :
    kwC2w.transition = some 3 ∧
    (TradfriLight.async_turn_on constXy sampleState kwC2w).1.all
      (c2_check kwC2w 3) = true :=
  ⟨rfl, c2_amended constXy sampleState kwC2w 3 rfl⟩

/-- Claim C3: for every brightness b at most 255 present in the request,
async_turn_on emits exactly one set_dimmer command, every emitted set_dimmer
command carries the value min b 254 (that is, b itself for b up to 254 and
254 for b equal to 255), and the group adapter emits exactly the one
set_dimmer command with the same clamped value. -/
theorem c3_brightness_clamp (f : Nat → Nat → Nat → XY)
    (st : TradfriLightState) (kwargs : TurnOnKwargs)
    (gst : TradfriGroupState) (gkwargs : GroupTurnOnKwargs) (b : Nat)
    (hb : b ≤ 255) (h : kwargs.brightness = some b)
    (hg : gkwargs.brightness = some b) :
    ((TradfriLight.async_turn_on f st kwargs).1.countP
        Command.is_set_dimmer = 1) ∧
    ((TradfriLight.async_turn_on f st kwargs).1.all
        (Command.dimmer_value_is (min b 254)) = true) ∧
    ((TradfriGroup.async_turn_on gst gkwargs).1
        = [GroupCommand.set_dimmer (min b 254)
            (gkwargs.transition.map (fun t => t * 10))]) := by
  rcases hxy : kwargs.xy_color with _ | p <;>
  rcases hrgb : kwargs.rgb_color with _ | c <;>
  rcases hct : kwargs.color_temp with _ | m <;>
  simp [TradfriLight.async_turn_on, TradfriGroup.async_turn_on, h, hg, hxy,
    hrgb, hct, Command.is_set_dimmer, Command.dimmer_value_is,
    clamp_eq_min b hb, List.countP_cons, List.countP_nil]

/-- Claim C3, witness at brightness 255: the clamped value 254 is emitted by
both adapters. -/
theorem c3_brightness_clamp_witness :
    (255 : Nat) ≤ 255 ∧ kwB255.brightness = some 255 ∧
    gkwB255.brightness = some 255 ∧
    ((TradfriLight.async_turn_on constXy sampleState kwB255).1.countP
        Command.is_set_dimmer = 1) ∧
    ((TradfriGroup.async_turn_on sampleGroupState gkwB255).1
        = [GroupCommand.set_dimmer 254 none]) := by
  refine ⟨by decide, rfl, rfl, ?_, ?_⟩
  · exact (c3_brightness_clamp constXy sampleState kwB255 sampleGroupState
      gkwB255 255 (by decide) rfl rfl).1
  · exact (c3_brightness_clamp constXy sampleState kwB255 sampleGroupState
      gkwB255 255 (by decide) rfl rfl).2.2

/-- Claim C4: a request with color temperature t and brightness b emits the
set_color_temp command without a transition entry, immediately followed by
the set_dimmer command, whatever the requested transition was; a request
with color temperature t and a transition tr but no brightness emits the
set_color_temp command carrying the converted transition tr * 10 (followed
by the power-on fallback). -/
theorem c4_color_temp_transition (f : Nat → Nat → Nat → XY)
    (st : TradfriLightState) (t b tr : Nat) (trOpt : Option Nat) :
    ((TradfriLight.async_turn_on f st
        { transition := trOpt, brightness := some b, xy_color := none,
          rgb_color := none, color_temp := some t }).1
      = [Command.set_color_temp t none,
         Command.set_dimmer (if b = 255 then 254 else b) none]) ∧
    ((TradfriLight.async_turn_on f st
        { transition := some tr, brightness := none, xy_color := none,
          rgb_color := none, color_temp := some t }).1
      = [Command.set_color_temp t (some (tr * 10)),
         Command.set_state true]) :=
  ⟨rfl, rfl⟩

/-- Claim C5, counterexample: with an executor whose set_color_temp
submission raises, the call for a request holding only a color temperature
submits the failing command and then stops; the set_state command emitted by
the same call is never submitted, so a failure of an earlier command does
cancel the later ones. -/
theorem c5_counterexample :
    (TradfriLight.async_turn_on constXy sampleState kwC5).1
      = [Command.set_color_temp 111 none, Command.set_state true] ∧
    TradfriLight.run_turn_on api1 constXy sampleState kwC5
      = ([Command.set_color_temp 111 none], some ApiError.requestError) ∧
    Command.set_state true ∉
      (TradfriLight.run_turn_on api1 constXy sampleState kwC5).1 := by
  decide

/-- Helper for claim C5: submitAll submits an initial segment of the command
list; on success the whole list is submitted; on a raised error the submitted
commands are exactly those up to and including the first failing one, every
command before it succeeded, and the commands after it are not submitted. -/
theorem submitAll_spec (api : Command → Except ApiError Unit)
    (cmds : List Command) :
    (∃ rest, cmds = (submitAll api cmds).1 ++ rest) ∧
    ((submitAll api cmds).2 = none → (submitAll api cmds).1 = cmds) ∧
    (∀ e, (submitAll api cmds).2 = some e →
      ∃ pre c rest, (submitAll api cmds).1 = pre ++ [c] ∧
        cmds = pre ++ c :: rest ∧ api c = Except.error e ∧
        ∀ c2 ∈ pre, api c2 = Except.ok ()) := by
  induction cmds with
  | nil =>
    exact ⟨⟨[], rfl⟩, fun _ => rfl, fun e he => by simp [submitAll] at he⟩
  | cons c cs ih =>
    rcases hapi : api c with e0 | u
    · refine ⟨⟨cs, ?_⟩, ?_, ?_⟩
      · simp [submitAll, hapi]
      · intro hnone; simp [submitAll, hapi] at hnone
      · intro e he
        simp [submitAll, hapi] at he
        subst he
        exact ⟨[], c, cs, by simp [submitAll, hapi], rfl, hapi, by simp⟩
    · obtain ⟨⟨rest1, hrest1⟩, hok, herr⟩ := ih
      refine ⟨⟨rest1, ?_⟩, ?_, ?_⟩
      · simp only [submitAll, hapi, List.cons_append]
        exact congrArg (List.cons c) hrest1
      · intro hnone
        simp only [submitAll, hapi] at hnone ⊢
        exact congrArg (List.cons c) (hok hnone)
      · intro e he
        simp only [submitAll, hapi] at he
        obtain ⟨pre, c1, rest, h1, h2, h3, h4⟩ := herr e he
        refine ⟨c :: pre, c1, rest, ?_, ?_, h3, ?_⟩
        · simp only [submitAll, hapi, List.cons_append]
          exact congrArg (List.cons c) h1
        · simp [h2]
        · intro c2 hc2
          rcases List.mem_cons.mp hc2 with h | h
          · subst h; exact hapi
          · exact h4 c2 h

/-- Claim C5, amended: within one turn-on call the commands are submitted
strictly sequentially in emission order; when no submission raises, every
emitted command is submitted; when a submission raises, the raised error
propagates out of the call, so the failing command is the last one submitted,
every command before it succeeded, and the remaining emitted commands of the
same call are not submitted (already submitted ones are not rolled back). -/
theorem c5_amended (api : Command → Except ApiError Unit)
    (f : Nat → Nat → Nat → XY) (st : TradfriLightState)
    (kwargs : TurnOnKwargs) :
    (∃ rest, (TradfriLight.async_turn_on f st kwargs).1
        = (TradfriLight.run_turn_on api f st kwargs).1 ++ rest) ∧
    ((TradfriLight.run_turn_on api f st kwargs).2 = none →
      (TradfriLight.run_turn_on api f st kwargs).1
        = (TradfriLight.async_turn_on f st kwargs).1) ∧
    (∀ e, (TradfriLight.run_turn_on api f st kwargs).2 = some e →
      ∃ pre c rest,
        (TradfriLight.run_turn_on api f st kwargs).1 = pre ++ [c] ∧
        (TradfriLight.async_turn_on f st kwargs).1 = pre ++ c :: rest ∧
        api c = Except.error e ∧
        ∀ c2 ∈ pre, api c2 = Except.ok ()) :=
  submitAll_spec api (TradfriLight.async_turn_on f st kwargs).1

/-- Claim C5, witness for the amended theorem: with the always-succeeding
executor the whole emitted command list of the kwC5 request is submitted. -/
theorem c5_amended_witness :
    (TradfriLight.run_turn_on apiOk constXy sampleState kwC5).1
      = (TradfriLight.async_turn_on constXy sampleState kwC5).1 :=
  (c5_amended apiOk constXy sampleState kwC5).2.1 rfl

/-- Claim C6: a refresh that raises nothing replaces every cached field, so
each read accessor afterwards returns exactly the corresponding field of the
resource passed to the refresh. -/
theorem c6_refresh_accessors (light : Light) (st : TradfriLightState)
    (ld : LightData) (rest : List LightData)
    (hl : light.light_control.lights = ld :: rest)
    (h : (TradfriLight._refresh light st).2 = none) :
    TradfriLight.name (TradfriLight._refresh light st).1 = light.name ∧
    TradfriLight.available (TradfriLight._refresh light st).1
      = light.reachable ∧
    TradfriLight.is_on (TradfriLight._refresh light st).1 = ld.state ∧
    TradfriLight.brightness (TradfriLight._refresh light st).1 = ld.dimmer ∧
    TradfriLight.color_temp (TradfriLight._refresh light st).1
      = ld.color_temp ∧
    TradfriLight.xy_color (TradfriLight._refresh light st).1
      = ld.xy_color := by
  cases hc : light.light_control.can_set_color with
  | true =>
    exfalso
    simp [TradfriLight._refresh, hl, hc] at h
  | false =>
    cases hm : light.light_control.can_set_mireds <;>
      simp [TradfriLight._refresh, hl, hc, hm, TradfriLight.name,
        TradfriLight.available, TradfriLight.is_on, TradfriLight.brightness,
        TradfriLight.color_temp, TradfriLight.xy_color]

/-- Claim C6, witness: refreshing with the sample non-color light succeeds
and every accessor returns the corresponding field of that resource. -/
theorem c6_refresh_accessors_witness :
    TradfriLight.name (TradfriLight._refresh sampleLight sampleState).1
      = "L" ∧
    TradfriLight.available (TradfriLight._refresh sampleLight sampleState).1
      = true ∧
    TradfriLight.is_on (TradfriLight._refresh sampleLight sampleState).1
      = false ∧
    TradfriLight.brightness
      (TradfriLight._refresh sampleLight sampleState).1 = 100 ∧
    TradfriLight.color_temp
      (TradfriLight._refresh sampleLight sampleState).1 = 300 ∧
    TradfriLight.xy_color
      (TradfriLight._refresh sampleLight sampleState).1 = none :=
  c6_refresh_accessors sampleLight sampleState sampleLightData [] rfl rfl

/-- Claim C7, code bug: for any light whose control metadata declares color
support, computing the capability flags raises NameError at line 301, because
the module never imports SUPPORT_RGB_COLOR; the capability set the claim
describes is never computed for such a device, and the refresh (hence the
constructor, which delegates to it) fails, whatever the previous adapter
state was. -/
theorem c7_refresh_name_error (st : TradfriLightState) :
    (TradfriLight._refresh colorCapableLight st).2
      = some RefreshError.nameError := rfl

/-- Claim C8, intended behavior of the rgb branch (source lines 242-248, a
Python syntax error as written): a request holding only an rgb triple emits a
set color command whose xy pair is the deterministic conversion of that
triple, followed by the power-on fallback. -/
theorem c8_rgb_intended (f : Nat → Nat → Nat → XY) (st : TradfriLightState)
    (r g bl : Nat) :
    (TradfriLight.async_turn_on f st
        { transition := none, brightness := none, xy_color := none,
          rgb_color := some (r, g, bl), color_temp := none }).1
      = [Command.set_xy_color (f r g bl).1 (f r g bl).2 none,
         Command.set_state true] := rfl

/-- Claim C9: a turn-on request with none of the recognized attributes
(whatever the transition field holds) makes the light adapter emit exactly
the one set power on command, and the group adapter exactly the one set
group state on command. -/
theorem c9_bare_turn_on (f : Nat → Nat → Nat → XY) (st : TradfriLightState)
    (gst : TradfriGroupState) (trOpt gtrOpt : Option Nat) :
    ((TradfriLight.async_turn_on f st
        { transition := trOpt, brightness := none, xy_color := none,
          rgb_color := none, color_temp := none }).1
      = [Command.set_state true]) ∧
    ((TradfriGroup.async_turn_on gst
        { transition := gtrOpt, brightness := none }).1
      = [GroupCommand.set_state 1]) :=
  ⟨rfl, rfl⟩

/-- Claim C10: neither turn-on nor turn-off of either adapter changes the
cached adapter state; the methods emit commands only, and the snapshot
fields, name, availability and capability flags they started from are the
ones they finish with. -/
theorem c10_frame (f : Nat → Nat → Nat → XY) (st : TradfriLightState)
    (kwargs : TurnOnKwargs) (gst : TradfriGroupState)
    (gkwargs : GroupTurnOnKwargs) :
    (TradfriLight.async_turn_on f st kwargs).2 = st ∧
    (TradfriLight.async_turn_off st).2 = st ∧
    (TradfriGroup.async_turn_on gst gkwargs).2 = gst ∧
    (TradfriGroup.async_turn_off gst).2 = gst := by
  refine ⟨?_, rfl, ?_, rfl⟩
  · rcases hxy : kwargs.xy_color with _ | p <;>
    rcases hrgb : kwargs.rgb_color with _ | c <;>
    rcases hct : kwargs.color_temp with _ | m <;>
    rcases hbr : kwargs.brightness with _ | b <;>
    simp [TradfriLight.async_turn_on, hxy, hrgb, hct, hbr]
  · rcases hbr : gkwargs.brightness with _ | b <;>
    simp [TradfriGroup.async_turn_on, hbr]
